import Mathlib

/-!
Shallow embedding of the conduit proxy's routing and connection-management
fabric (src/proxy): the inbound recognizer (src/proxy/src/inbound.rs), the
controller-client Backoff and AddOrigin middleware
(src/proxy/src/control/mod.rs), the route-setup composition of
`Inbound::bind_service`, and the bidirectional TCP forwarder
(src/proxy/src/transparency/tcp.rs) with its `CopyBuf`.

Machine integers (usize positions, byte counts) are modelled as `Nat`;
time instants are abstract `Nat` ticks; fallible or asynchronous operations
return explicit poll outcomes.
-/

set_option maxRecDepth 2000

namespace Conduit

/-- An (IP, port) pair, compared by value (`std::net::SocketAddr`). -/
structure SocketAddr where
  ip : Nat
  port : Nat
deriving DecidableEq, Repr

/-- `bind::Protocol` (src/proxy/src/bind.rs lines 45-49): marks whether a
destination key speaks HTTP/1 or HTTP/2. -/
inductive Protocol where
  | http1
  | http2
deriving DecidableEq, Repr

/-- The HTTP versions a request can carry (`http::Version`); the recognizer
only distinguishes `HTTP_2` from everything else. -/
inductive Version where
  | http10
  | http11
  | http2
deriving DecidableEq, Repr

/-- `ctx::transport::Server`: per-accepted-connection record attached to
inbound requests as an extension (local address, remote address, optional
original destination). -/
structure ServerCtx where
  localAddr : SocketAddr
  remote : SocketAddr
  orig_dst : Option SocketAddr
deriving DecidableEq, Repr

/-- Modelled from the spec: `ctx::transport::Server::orig_dst_if_not_local`
(the `ctx` module is not part of the covered source files). Spec §3:
"`original_dst_if_not_local()` returns the original destination only when it
differs from the local listener address (loop prevention)". -/
def ServerCtx.origDstIfNotLocal (c : ServerCtx) : Option SocketAddr :=
  match c.orig_dst with
  | some a => if a = c.localAddr then none else some a
  | none => none

/-- URI parts as used by `AddOrigin::call` (`http::uri::Parts`): optional
scheme, authority, and path-and-query components. -/
structure UriParts where
  scheme : Option String
  authority : Option String
  path_and_query : Option String
deriving DecidableEq, Repr

/-- An HTTP request (`http::Request<B>`): head (method, uri, version,
headers, extension slot holding the server context) plus a body. -/
structure Request (B : Type) where
  method : String
  uri : UriParts
  version : Version
  headers : List (String × String)
  extensions : Option ServerCtx
  body : B
deriving DecidableEq, Repr

/-- The protocol tag computed from the request version inside
`Inbound::recognize` (src/proxy/src/inbound.rs lines 60-63):
`HTTP_2 => Http2, _ => Http1`. -/
def protocolOf (v : Version) : Protocol :=
  match v with
  | .http2 => Protocol.http2
  | _ => Protocol.http1

namespace Inbound

/-- `Inbound::recognize` (src/proxy/src/inbound.rs lines 51-70): take the
server context extension, apply `orig_dst_if_not_local`, fall back to the
configured default address, and pair the resulting address with the
version-derived protocol tag. -/
def recognize {B : Type} (defaultAddr : Option SocketAddr) (req : Request B) :
    Option (SocketAddr × Protocol) :=
  let key := (req.extensions.bind fun ctx => ctx.origDstIfNotLocal).orElse
    (fun _ => defaultAddr)
  let proto := protocolOf req.version
  key.map fun addr => (addr, proto)

end Inbound

/-- `bind::BufferSpawnError` (src/proxy/src/bind.rs lines 62-66). -/
inductive BufferSpawnError where
  | Inbound
  | Outbound
deriving DecidableEq, Repr

/-- The service produced by `Bind::bind_service` for one endpoint
(src/proxy/src/bind.rs lines 161-189): the `Reconnect(sensor(client(...)))`
stack, represented by the data that determines it — the destination address
and the protocol. -/
structure BoundService where
  addr : SocketAddr
  protocol : Protocol
deriving DecidableEq, Repr

/-- `Bind::bind_service` (src/proxy/src/bind.rs lines 161-189): assembles
the per-endpoint client stack for an address and protocol. -/
def bindService (addr : SocketAddr) (proto : Protocol) : BoundService :=
  { addr := addr, protocol := proto }

/-- `tower_buffer::Buffer` wrapper around an inner service. -/
structure Buffer (S : Type) where
  inner : S
deriving DecidableEq, Repr

/-- `Buffer::new`: succeeds with the wrapped service when the executor can
spawn the buffer's worker task, and fails otherwise (the spawn outcome is
the executor's, modelled as a boolean input). -/
def Buffer.new {S : Type} (svc : S) (spawnOk : Bool) : Except Unit (Buffer S) :=
  if spawnOk then .ok { inner := svc } else .error ()

/-- `tower_in_flight_limit::InFlightLimit` wrapper: an inner service and the
admission cap. -/
structure InFlightLimit (S : Type) where
  inner : S
  max_in_flight : Nat
deriving DecidableEq, Repr

/-- `InFlightLimit::new`. -/
def InFlightLimit.new {S : Type} (svc : S) (n : Nat) : InFlightLimit S :=
  { inner := svc, max_in_flight := n }

/-- `MAX_IN_FLIGHT` (src/proxy/src/inbound.rs line 22). -/
def MAX_IN_FLIGHT : Nat := 10000

namespace Inbound

/-- `Inbound::bind_service` (src/proxy/src/inbound.rs lines 78-87):
`Buffer::new(bind.bind_service(addr, proto), executor)
   .map(|buffer| InFlightLimit::new(buffer, MAX_IN_FLIGHT))
   .map_err(|_| BufferSpawnError::Inbound)`. -/
def bindServiceRoute (spawnOk : Bool) (key : SocketAddr × Protocol) :
    Except BufferSpawnError (InFlightLimit (Buffer BoundService)) :=
  ((Buffer.new (bindService key.1 key.2) spawnOk).map fun buffer =>
    InFlightLimit.new buffer MAX_IN_FLIGHT).mapError fun _ =>
      BufferSpawnError.Inbound

end Inbound

/-! ## Backoff (src/proxy/src/control/mod.rs lines 132-187) -/

/-- Outcome of the inner service's `poll_ready` when Backoff polls it:
`Ok(Async::Ready)`, `Ok(Async::NotReady)`, or `Err(_)`. -/
inductive InnerPoll where
  | ready
  | notReady
  | err
deriving DecidableEq, Repr

/-- Outcome Backoff reports from its own `poll_ready` (it swallows inner
errors into `NotReady`, so it only ever reports readiness or not). -/
inductive SvcPoll where
  | ready
  | notReady
deriving DecidableEq, Repr

/-- The `Backoff<S>` service state (src/proxy/src/control/mod.rs lines
136-141): the inner service, the `waiting` flag, and the armed timer's
deadline (an abstract tick; the reactor timer fires once `now` reaches it). -/
structure Backoff (σ : Type) where
  inner : σ
  waiting : Bool
  deadline : Nat
deriving DecidableEq, Repr

/-- `Backoff::poll_ready` (src/proxy/src/control/mod.rs lines 164-182) as a
step function. Inputs: the wait duration, the inner service's `poll_ready`
behaviour, the current state, and the current time. Output: the reported
poll outcome, the new state, and how many times the inner service was
polled during this call. -/
def Backoff.pollReady {σ : Type} (waitDur : Nat) (innerPoll : σ → InnerPoll × σ)
    (s : Backoff σ) (now : Nat) : SvcPoll × Backoff σ × Nat :=
  if s.waiting ∧ now < s.deadline then
    (.notReady, s, 0)
  else
    match innerPoll s.inner with
    | (.err, i') =>
        (.notReady, { inner := i', waiting := true, deadline := now + waitDur }, 1)
    | (.ready, i') =>
        (.ready, { inner := i', waiting := false, deadline := s.deadline }, 1)
    | (.notReady, i') =>
        (.notReady, { inner := i', waiting := false, deadline := s.deadline }, 1)

/-- `Backoff::call` (src/proxy/src/control/mod.rs lines 184-186):
`self.inner.call(req)` — forwards to the inner service, leaving the
`waiting` flag and timer untouched. -/
def Backoff.call {σ Req Fut : Type} (innerCall : σ → Req → Fut × σ)
    (s : Backoff σ) (req : Req) : Fut × Backoff σ :=
  let (fut, i') := innerCall s.inner req
  (fut, { s with inner := i' })

/-- The wait duration Backoff is constructed with in the controller stack
(src/proxy/src/control/mod.rs line 109): `Duration::from_secs(5)`, in
seconds. -/
def controllerBackoffWait : Nat := 5

/-! ## AddOrigin (src/proxy/src/control/mod.rs lines 189-228) -/

/-- `AddOrigin::call` (src/proxy/src/control/mod.rs lines 219-227): split
the request, convert the URI into parts, overwrite scheme and authority
with the configured values, rebuild, and pass the result to the inner
service. Returns the request handed to `inner.call`. -/
def addOriginCall {B : Type} (scheme authority : String) (req : Request B) :
    Request B :=
  { req with
    uri := { scheme := some scheme
             authority := some authority
             path_and_query := req.uri.path_and_query } }

/-! ## TCP forwarder (src/proxy/src/transparency/tcp.rs) -/

/-- A byte, as `Nat` (values < 256 in any real trace; the bound is not
needed by the copy logic). -/
abbrev Byte := Nat

/-- `CopyBuf` (src/proxy/src/transparency/tcp.rs lines 111-119): a byte
buffer with independent read and write positions. -/
structure CopyBuf where
  buf : List Byte
  read_pos : Nat
  write_pos : Nat
deriving DecidableEq, Repr

namespace CopyBuf

/-- `CopyBuf::new` (lines 229-235): a zeroed 4096-byte buffer, both
positions at 0. -/
def new : CopyBuf :=
  { buf := List.replicate 4096 0, read_pos := 0, write_pos := 0 }

/-- `CopyBuf::reset` (lines 237-241): zero both positions (the source
debug-asserts `read_pos == write_pos` at the call). -/
def reset (c : CopyBuf) : CopyBuf :=
  { c with read_pos := 0, write_pos := 0 }

/-- `Buf::remaining` (lines 245-247): `write_pos - read_pos`. -/
def remaining (c : CopyBuf) : Nat := c.write_pos - c.read_pos

/-- `Buf::has_remaining` (provided method): `remaining() > 0`. -/
def hasRemaining (c : CopyBuf) : Bool := decide (0 < c.remaining)

/-- `Buf::bytes` (lines 249-251): the slice `buf[read_pos..write_pos]`. -/
def bytes (c : CopyBuf) : List Byte :=
  (c.buf.take c.write_pos).drop c.read_pos

/-- `Buf::advance` (lines 253-256): asserts `write_pos >= read_pos + cnt`
and moves the read position forward. -/
def advance (c : CopyBuf) (cnt : Nat) : CopyBuf :=
  { c with read_pos := c.read_pos + cnt }

/-- `BufMut::remaining_mut` (lines 260-262): `buf.len() - write_pos`. -/
def remainingMut (c : CopyBuf) : Nat := c.buf.length - c.write_pos

/-- `BufMut::bytes_mut` (lines 264-266): the slice `buf[write_pos..]`. -/
def bytesMut (c : CopyBuf) : List Byte := c.buf.drop c.write_pos

/-- `BufMut::advance_mut` (lines 268-271): asserts
`buf.len() >= write_pos + cnt` and moves the write position forward. -/
def advanceMut (c : CopyBuf) (cnt : Nat) : CopyBuf :=
  { c with write_pos := c.write_pos + cnt }

/-- Filling the buffer through `bytes_mut` with `xs` and then advancing the
write position by `xs.length` (what a successful `read_buf` does). -/
def writeBytes (c : CopyBuf) (xs : List Byte) : CopyBuf :=
  { c with
    buf := c.buf.take c.write_pos ++ xs ++ c.buf.drop (c.write_pos + xs.length)
    write_pos := c.write_pos + xs.length }

/-- The `CopyBuf` well-formedness invariant claimed of every state:
`read_pos ≤ write_pos ≤ buf.len() = 4096`. -/
def Inv (c : CopyBuf) : Prop :=
  c.read_pos ≤ c.write_pos ∧ c.write_pos ≤ c.buf.length ∧ c.buf.length = 4096

instance (c : CopyBuf) : Decidable c.Inv := by
  unfold Inv; infer_instance

end CopyBuf

/-- I/O error kinds the forwarder distinguishes: the explicit `WriteZero`
error (lines 224-226) and any other `io::Error`. -/
inductive IoErr where
  | writeZero
  | other
deriving DecidableEq, Repr

/-- A poll outcome: `Ok(Async::Ready(a))`, `Ok(Async::NotReady)`, or
`Err(e)`. -/
inductive Poll3 (α : Type) where
  | ready (a : α)
  | notReady
  | err (e : IoErr)
deriving DecidableEq, Repr

/-- One scripted outcome of a `read_buf` call on a socket: ready with the
given bytes (`[]` meaning a 0-byte read, i.e. EOF), not ready, or an I/O
error. -/
inductive ReadEv where
  | data (bs : List Byte)
  | notReady
  | ioErr
deriving DecidableEq, Repr

/-- One scripted outcome of a `write_buf` call: the socket accepts up to
`n` bytes, is not ready, or errors. -/
inductive WriteEv where
  | accept (n : Nat)
  | notReady
  | ioErr
deriving DecidableEq, Repr

/-- One scripted outcome of a `shutdown` call. -/
inductive ShutEv where
  | done
  | notReady
  | ioErr
deriving DecidableEq, Repr

/-- A deterministic model of one socket endpoint: scripts for its read,
write, and shutdown operations (exhausted script = forever not ready), plus
the log of bytes actually written into it. -/
structure IoState where
  reads : List ReadEv
  writes : List WriteEv
  shuts : List ShutEv
  written : List Byte
deriving DecidableEq, Repr

/-- `read_buf` against a scripted endpoint: consume the next read event;
on data, copy up to `remaining_mut` bytes into the buffer (leftover bytes
stay pending on the socket), returning the count read. -/
def readBuf (io : IoState) (b : CopyBuf) : Poll3 (Nat × CopyBuf) × IoState :=
  match io.reads with
  | [] => (.notReady, io)
  | ev :: rest =>
    match ev with
    | .notReady => (.notReady, { io with reads := rest })
    | .ioErr => (.err .other, { io with reads := rest })
    | .data bs =>
        let k := min bs.length b.remainingMut
        let pending := bs.drop k
        let reads' := if pending.isEmpty then rest else ReadEv.data pending :: rest
        (.ready (k, b.writeBytes (bs.take k)), { io with reads := reads' })

/-- `shutdown` against a scripted endpoint. -/
def shutIo (io : IoState) : Poll3 Unit × IoState :=
  match io.shuts with
  | [] => (.notReady, io)
  | .done :: rest => (.ready (), { io with shuts := rest })
  | .notReady :: rest => (.notReady, { io with shuts := rest })
  | .ioErr :: rest => (.err .other, { io with shuts := rest })

/-- The `while buf.has_remaining()` loop of `HalfDuplex::write_into`
(lines 207-214): each iteration calls `dst.io.write_buf(buf)`; a `0`-byte
write is the `WriteZero` error; otherwise the buffer cursor advances and
the written bytes are logged at the destination. Terminates because each
iteration consumes one event of the destination's write script. -/
def writeLoop (b : CopyBuf) (io : IoState) : Poll3 Unit × CopyBuf × IoState :=
  if b.hasRemaining then
    match hw : io.writes with
    | [] => (.notReady, b, io)
    | ev :: rest =>
      match ev with
      | .notReady => (.notReady, b, { io with writes := rest })
      | .ioErr => (.err .other, b, { io with writes := rest })
      | .accept n =>
          let k := min n b.remaining
          if k = 0 then
            (.err .writeZero, b, { io with writes := rest })
          else
            writeLoop (b.advance k)
              { io with writes := rest, written := io.written ++ b.bytes.take k }
  else
    (.ready (), b, io)
termination_by io.writes.length
decreasing_by simp [hw]

/-- `HalfDuplex<T>` (lines 101-106): the optional copy buffer (`none` once
EOF has been seen and drained), the peer-shutdown flag, and the socket. -/
structure HalfDuplex where
  buf : Option CopyBuf
  is_shutdown : Bool
  io : IoState
deriving DecidableEq, Repr

namespace HalfDuplex

/-- `HalfDuplex::new` (lines 161-167). -/
def new (io : IoState) : HalfDuplex :=
  { buf := some CopyBuf.new, is_shutdown := false, io := io }

/-- `HalfDuplex::read` (lines 186-201): if a buffer is present and fully
drained, reset it and read from the socket; a 0-byte read is EOF and
releases the buffer slot. -/
def read (h : HalfDuplex) : Poll3 Unit × HalfDuplex :=
  match h.buf with
  | none => (.ready (), h)
  | some b =>
    if b.hasRemaining then
      (.ready (), h)
    else
      let b0 := b.reset
      match readBuf h.io b0 with
      | (.ready (n, b1), io') =>
          if n = 0 then
            (.ready (), { h with buf := none, io := io' })
          else
            (.ready (), { h with buf := some b1, io := io' })
      | (.notReady, io') => (.notReady, { h with buf := some b0, io := io' })
      | (.err e, io') => (.err e, { h with buf := some b0, io := io' })

/-- `HalfDuplex::write_into` (lines 203-217): drain this half's buffer into
the destination's socket. -/
def writeInto (h : HalfDuplex) (dst : HalfDuplex) :
    Poll3 Unit × HalfDuplex × HalfDuplex :=
  match h.buf with
  | none => (.ready (), h, dst)
  | some b =>
    let (r, b', dstIo') := writeLoop b dst.io
    (r, { h with buf := some b' }, { dst with io := dstIo' })

/-- `HalfDuplex::is_done` (lines 219-221). -/
def isDone (h : HalfDuplex) : Bool := h.is_shutdown

/-- `HalfDuplex::copy_into` (lines 169-184): the `loop` body — read, write
into the destination, and once this half's buffer slot is `none` and the
destination is not yet shut down, shut the destination down. The `loop` is
fueled: `none` means the given iteration budget was exhausted without the
loop returning (the loop body itself never exits when the buffer is gone
but the destination is already shut down). -/
def copyInto (fuel : Nat) (h : HalfDuplex) (dst : HalfDuplex) :
    Option (Poll3 Unit × HalfDuplex × HalfDuplex) :=
  match fuel with
  | 0 => none
  | fuel' + 1 =>
    match h.read with
    | (.notReady, h') => some (.notReady, h', dst)
    | (.err e, h') => some (.err e, h', dst)
    | (.ready _, h') =>
      match h'.writeInto dst with
      | (.notReady, h'', dst') => some (.notReady, h'', dst')
      | (.err e, h'', dst') => some (.err e, h'', dst')
      | (.ready _, h'', dst') =>
        if h''.buf.isNone ∧ ¬dst'.is_shutdown then
          match shutIo dst'.io with
          | (.ready _, io') =>
              some (.ready (), h'', { dst' with io := io', is_shutdown := true })
          | (.notReady, io') => some (.notReady, h'', { dst' with io := io' })
          | (.err e, io') => some (.err e, h'', { dst' with io := io' })
        else
          copyInto fuel' h'' dst'

end HalfDuplex

/-- `Duplex<In, Out>` (lines 96-99). -/
structure Duplex where
  half_in : HalfDuplex
  half_out : HalfDuplex
deriving DecidableEq, Repr

/-- `Duplex::new` (lines 126-131). -/
def Duplex.new (inIo outIo : IoState) : Duplex :=
  { half_in := HalfDuplex.new inIo, half_out := HalfDuplex.new outIo }

/-- `Duplex::poll` (lines 142-154):
`self.half_in.copy_into(&mut self.half_out)?;
 self.half_out.copy_into(&mut self.half_in)?;`
then `Ready(())` when both halves are done, else `NotReady`. Errors
propagate through `?`; the `Async` part of each `copy_into` is purposefully
ignored. `none` = a `copy_into` loop exhausted its fuel. -/
def Duplex.poll (fuel : Nat) (d : Duplex) : Option (Poll3 Unit × Duplex) :=
  match HalfDuplex.copyInto fuel d.half_in d.half_out with
  | none => none
  | some (.err e, hin, hout) => some (.err e, { half_in := hin, half_out := hout })
  | some (_, hin, hout) =>
    match HalfDuplex.copyInto fuel hout hin with
    | none => none
    | some (.err e, hout', hin') =>
        some (.err e, { half_in := hin', half_out := hout' })
    | some (_, hout', hin') =>
        if hin'.isDone ∧ hout'.isDone then
          some (.ready (), { half_in := hin', half_out := hout' })
        else
          some (.notReady, { half_in := hin', half_out := hout' })

/-! ## Helper lemmas -/

/-- The fresh buffer holds 4096 bytes. -/
theorem copybuf_new_length : CopyBuf.new.buf.length = 4096 := by
  simp only [CopyBuf.new, List.length_replicate]

/-- The fresh buffer satisfies the `CopyBuf` invariant. -/
theorem copybuf_new_inv : CopyBuf.new.Inv := by
  refine ⟨Nat.le_refl 0, ?_, copybuf_new_length⟩
  rw [copybuf_new_length]
  show (0 : Nat) ≤ 4096
  omega

/-- `HalfDuplex::read` is a no-op once the buffer slot is gone. -/
theorem halfduplex_read_buf_none {h : HalfDuplex} (hb : h.buf = none) :
    h.read = (.ready (), h) := by
  simp [HalfDuplex.read, hb]

/-- `HalfDuplex::write_into` writes nothing once the buffer slot is gone:
the destination (its write script and its log of written bytes) is
untouched. -/
theorem halfduplex_write_into_none {h dst : HalfDuplex} (hb : h.buf = none) :
    h.writeInto dst = (.ready (), h, dst) := by
  simp [HalfDuplex.writeInto, hb]

/-- The `copy_into` loop never returns once this half's buffer slot is
`none` while the destination is already shut down: every iteration makes no
progress and re-enters the loop. -/
theorem copy_into_spins {h dst : HalfDuplex} (hb : h.buf = none)
    (hs : dst.is_shutdown = true) :
    ∀ fuel, HalfDuplex.copyInto fuel h dst = none := by
  intro fuel
  induction fuel with
  | zero => rfl
  | succ n ih =>
    simp [HalfDuplex.copyInto, halfduplex_read_buf_none hb,
      halfduplex_write_into_none hb, hs, hb, ih]

/-- Resetting the fresh buffer gives back the fresh buffer. -/
theorem copybuf_reset_new : CopyBuf.new.reset = CopyBuf.new := rfl

/-- The fresh buffer has no remaining bytes to write. -/
theorem copybuf_new_not_remaining : CopyBuf.new.hasRemaining = false := rfl

/-- The state a Duplex reaches after one poll when the inbound socket hits
EOF immediately (so `half_in` drained and shut the peer down) while the
outbound socket had nothing to read yet: `half_in`'s buffer slot is gone,
`half_out` is flagged shut down, and `half_in` is not. -/
def duplexStuck : Duplex :=
  { half_in := { buf := none, is_shutdown := false,
                 io := { reads := [], writes := [], shuts := [], written := [] } },
    half_out := { buf := some CopyBuf.new, is_shutdown := true,
                  io := { reads := [], writes := [], shuts := [], written := [] } } }

/-! ## Claim theorems -/

/-- C3: for an inbound request whose server context has `orig_dst = Some(a)`
with `a` different from the local listener address, `Inbound::recognize`
returns `Some((a, tag))` where `tag` is HTTP/2 iff the request's version is
HTTP/2 and HTTP/1 otherwise. -/
theorem recognize_orig_dst_not_local {B : Type} (defaultAddr : Option SocketAddr)
    (req : Request B) (ctx : ServerCtx) (a : SocketAddr)
    (hext : req.extensions = some ctx) (horig : ctx.orig_dst = some a)
    (hne : a ≠ ctx.localAddr) :
    Inbound.recognize defaultAddr req = some (a, protocolOf req.version) ∧
      (protocolOf req.version = Protocol.http2 ↔ req.version = Version.http2) := by
  constructor
  · simp [Inbound.recognize, hext, ServerCtx.origDstIfNotLocal, horig, hne,
      Option.orElse]
  · cases req.version <;> simp [protocolOf]

/-- Witness for C3: a request with server context
local=(1,4140), orig_dst=Some((3,8080)) ≠ local, version HTTP/2. -/
theorem recognize_orig_dst_not_local_witness :
    Inbound.recognize none
        ⟨"GET", ⟨none, none, some "/p?q=1"⟩, .http2, [], some ⟨⟨1, 4140⟩, ⟨2, 51000⟩, some ⟨3, 8080⟩⟩, ()⟩
      = some (⟨3, 8080⟩, protocolOf Version.http2) ∧
      (protocolOf Version.http2 = Protocol.http2 ↔ Version.http2 = Version.http2) :=
  recognize_orig_dst_not_local none
    ⟨"GET", ⟨none, none, some "/p?q=1"⟩, .http2, [], some ⟨⟨1, 4140⟩, ⟨2, 51000⟩, some ⟨3, 8080⟩⟩, ()⟩
    ⟨⟨1, 4140⟩, ⟨2, 51000⟩, some ⟨3, 8080⟩⟩ ⟨3, 8080⟩ rfl rfl (by decide)

/-- Counterexample for C1: with `default_addr = Some(local)` and a server
context whose `orig_dst` equals the local listener address (1,4140), the
recognizer returns a key whose address IS the local listener address —
refuting "the returned key's address is never the local listener address". -/
theorem recognize_local_default_counterexample :
    Inbound.recognize (some ⟨1, 4140⟩)
        ⟨"GET", ⟨none, none, none⟩, .http11, [], some ⟨⟨1, 4140⟩, ⟨2, 51000⟩, some ⟨1, 4140⟩⟩, ()⟩
      = some (⟨1, 4140⟩, Protocol.http1) := by
  decide

/-- C1 (amended): when the server context's `orig_dst` equals the local
listener address, `recognize` falls through to the configured default
address (`None` when no default is set); the returned key's address differs
from the local listener address provided the configured default is not
itself the local address. -/
theorem recognize_orig_dst_local_falls_to_default {B : Type}
    (defaultAddr : Option SocketAddr) (req : Request B) (ctx : ServerCtx)
    (hext : req.extensions = some ctx) (horig : ctx.orig_dst = some ctx.localAddr) :
    Inbound.recognize defaultAddr req
        = defaultAddr.map (fun a => (a, protocolOf req.version)) ∧
      (defaultAddr ≠ some ctx.localAddr →
        ∀ a p, Inbound.recognize defaultAddr req = some (a, p) →
          a ≠ ctx.localAddr) := by
  have hrec : Inbound.recognize defaultAddr req
      = defaultAddr.map (fun a => (a, protocolOf req.version)) := by
    simp [Inbound.recognize, hext, ServerCtx.origDstIfNotLocal, horig, Option.orElse]
  refine ⟨hrec, fun hdef a p hk => ?_⟩
  rw [hrec] at hk
  rcases defaultAddr with _ | d
  · simp at hk
  · simp at hk
    rintro rfl
    exact hdef (by rw [hk.1])

/-- Witness for C1 (amended): default `Some((9,80))`, server context with
orig_dst equal to local=(1,4140). -/
theorem recognize_orig_dst_local_falls_to_default_witness :
    Inbound.recognize (some ⟨9, 80⟩)
        ⟨"GET", ⟨none, none, none⟩, .http11, [], some ⟨⟨1, 4140⟩, ⟨2, 51000⟩, some ⟨1, 4140⟩⟩, ()⟩
        = (some (⟨9, 80⟩ : SocketAddr)).map (fun a => (a, protocolOf Version.http11)) ∧
      (some (⟨9, 80⟩ : SocketAddr) ≠ some (⟨1, 4140⟩ : SocketAddr) →
        ∀ a p, Inbound.recognize (some ⟨9, 80⟩)
            ⟨"GET", ⟨none, none, none⟩, .http11, [], some ⟨⟨1, 4140⟩, ⟨2, 51000⟩, some ⟨1, 4140⟩⟩, ()⟩
          = some (a, p) → a ≠ (⟨1, 4140⟩ : SocketAddr)) :=
  recognize_orig_dst_local_falls_to_default (some ⟨9, 80⟩)
    ⟨"GET", ⟨none, none, none⟩, .http11, [], some ⟨⟨1, 4140⟩, ⟨2, 51000⟩, some ⟨1, 4140⟩⟩, ()⟩
    ⟨⟨1, 4140⟩, ⟨2, 51000⟩, some ⟨1, 4140⟩⟩ rfl rfl

/-- Counterexample for C2: a request with no server context but version
HTTP/2 and default `Some((9,80))` yields `Some(((9,80), HTTP/2))`, not
`default_addr.map(|a| (a, HTTP/1))` — the protocol tag does depend on the
request. -/
theorem recognize_no_ctx_counterexample :
    Inbound.recognize (some ⟨9, 80⟩)
        ⟨"GET", ⟨none, none, none⟩, .http2, [], none, ()⟩
      = some (⟨9, 80⟩, Protocol.http2) ∧
    Inbound.recognize (some ⟨9, 80⟩)
        ⟨"GET", ⟨none, none, none⟩, .http2, [], none, ()⟩
      ≠ (some (⟨9, 80⟩ : SocketAddr)).map (fun a => (a, Protocol.http1)) := by
  decide

/-- C2 (amended): for a request with no server context extension,
`recognize` returns `default_addr.map(|a| (a, proto))` where `proto` is
HTTP/2 iff the request's version is HTTP/2 and HTTP/1 otherwise (so `None`
when no default is configured, and the HTTP/1 pairing holds for every
non-HTTP/2 request). -/
theorem recognize_no_ctx_default {B : Type} (defaultAddr : Option SocketAddr)
    (req : Request B) (hext : req.extensions = none) :
    Inbound.recognize defaultAddr req
        = defaultAddr.map (fun a => (a, protocolOf req.version)) ∧
      (req.version ≠ Version.http2 →
        Inbound.recognize defaultAddr req
          = defaultAddr.map (fun a => (a, Protocol.http1))) := by
  have hrec : Inbound.recognize defaultAddr req
      = defaultAddr.map (fun a => (a, protocolOf req.version)) := by
    simp [Inbound.recognize, hext, Option.orElse]
  refine ⟨hrec, fun hv => ?_⟩
  rw [hrec]
  cases hver : req.version <;> simp_all [protocolOf]

/-- Witness for C2 (amended): no server context, default `Some((9,80))`,
version HTTP/1.1. -/
theorem recognize_no_ctx_default_witness :
    Inbound.recognize (some ⟨9, 80⟩)
        ⟨"GET", ⟨none, none, none⟩, .http11, [], none, ()⟩
        = (some (⟨9, 80⟩ : SocketAddr)).map (fun a => (a, protocolOf Version.http11)) ∧
      (Version.http11 ≠ Version.http2 →
        Inbound.recognize (some ⟨9, 80⟩)
            ⟨"GET", ⟨none, none, none⟩, .http11, [], none, ()⟩
          = (some (⟨9, 80⟩ : SocketAddr)).map (fun a => (a, Protocol.http1))) :=
  recognize_no_ctx_default (some ⟨9, 80⟩)
    ⟨"GET", ⟨none, none, none⟩, .http11, [], none, ()⟩ rfl

/-- C7: `Inbound::bind_service` produces exactly
`InFlightLimit(Buffer(bound service), 10000)` on success and
`BufferSpawnError::Inbound` when the buffer's worker cannot be spawned; no
other outcome exists. -/
theorem bind_service_route_spec (spawnOk : Bool) (key : SocketAddr × Protocol) :
    Inbound.bindServiceRoute spawnOk key
      = if spawnOk then
          Except.ok (InFlightLimit.new (Buffer.mk (bindService key.1 key.2)) 10000)
        else
          Except.error BufferSpawnError.Inbound := by
  cases spawnOk <;>
    simp [Inbound.bindServiceRoute, Buffer.new, InFlightLimit.new, MAX_IN_FLIGHT,
      Except.map, Except.mapError]

/-- C8: `AddOrigin::call` sets the URI's scheme and authority to the
configured pair, keeps the path-and-query, and leaves method, headers,
version, extensions and body unchanged. -/
theorem add_origin_call_spec {B : Type} (scheme authority : String) (req : Request B) :
    (addOriginCall scheme authority req).uri.scheme = some scheme ∧
    (addOriginCall scheme authority req).uri.authority = some authority ∧
    (addOriginCall scheme authority req).uri.path_and_query = req.uri.path_and_query ∧
    (addOriginCall scheme authority req).method = req.method ∧
    (addOriginCall scheme authority req).headers = req.headers ∧
    (addOriginCall scheme authority req).version = req.version ∧
    (addOriginCall scheme authority req).extensions = req.extensions ∧
    (addOriginCall scheme authority req).body = req.body := by
  simp [addOriginCall]

/-- C9: `Backoff::call` forwards every request to the inner service
unconditionally — the result is the inner call's result and the `waiting`
flag and timer deadline are untouched, whatever state Backoff is in
(including `waiting = true` with an unexpired timer). -/
theorem backoff_call_forwards {σ Req Fut : Type} (innerCall : σ → Req → Fut × σ)
    (s : Backoff σ) (req : Req) :
    (Backoff.call innerCall s req).1 = (innerCall s.inner req).1 ∧
    (Backoff.call innerCall s req).2.waiting = s.waiting ∧
    (Backoff.call innerCall s req).2.deadline = s.deadline ∧
    (Backoff.call innerCall s req).2.inner = (innerCall s.inner req).2 := by
  simp [Backoff.call]

/-- C4: the controller Backoff (wait_dur = 5 s): an inner `poll_ready`
error arms the timer for `now + wait_dur`, sets `waiting`, reports
NotReady (one inner poll); while waiting before the deadline every
`poll_ready` reports NotReady with zero inner polls and an unchanged
state; once the deadline is reached the inner is polled exactly once (and
`waiting` is cleared when the inner does not fail again); and after a
failure at `now`, every poll strictly before `now + wait_dur` performs no
inner poll — so at least `wait_dur` elapses between the failed poll and
the next inner poll. -/
theorem backoff_poll_ready_spec {σ : Type} (innerPoll : σ → InnerPoll × σ)
    (s : Backoff σ) (now : Nat) :
    (¬(s.waiting = true ∧ now < s.deadline) → (innerPoll s.inner).1 = .err →
      Backoff.pollReady controllerBackoffWait innerPoll s now
        = (.notReady,
            ⟨(innerPoll s.inner).2, true, now + controllerBackoffWait⟩, 1)) ∧
    (s.waiting = true → now < s.deadline →
      Backoff.pollReady controllerBackoffWait innerPoll s now = (.notReady, s, 0)) ∧
    (s.waiting = true → s.deadline ≤ now →
      (Backoff.pollReady controllerBackoffWait innerPoll s now).2.2 = 1 ∧
      ((innerPoll s.inner).1 ≠ .err →
        (Backoff.pollReady controllerBackoffWait innerPoll s now).2.1.waiting
          = false)) ∧
    ((innerPoll s.inner).1 = .err → ¬(s.waiting = true ∧ now < s.deadline) →
      ∀ (t' : Nat) (innerPoll' : σ → InnerPoll × σ),
        t' < now + controllerBackoffWait →
        Backoff.pollReady controllerBackoffWait innerPoll'
            (Backoff.pollReady controllerBackoffWait innerPoll s now).2.1 t'
          = (.notReady,
              (Backoff.pollReady controllerBackoffWait innerPoll s now).2.1, 0)) := by
  rcases hp : innerPoll s.inner with ⟨r, i'⟩
  refine ⟨?_, ?_, ?_, ?_⟩
  · intro hw hr
    simp only at hr
    subst hr
    simp [Backoff.pollReady, hw, hp]
  · intro hw hlt
    simp [Backoff.pollReady, hw, hlt]
  · intro hw hge
    have hcond : ¬(s.waiting = true ∧ now < s.deadline) := by
      rintro ⟨_, hlt⟩; omega
    cases r <;> simp [Backoff.pollReady, hcond, hp]
  · intro hr hw t' innerPoll' hlt
    simp only at hr
    subst hr
    have hstate : (Backoff.pollReady controllerBackoffWait innerPoll s now).2.1
        = ⟨i', true, now + controllerBackoffWait⟩ := by
      simp [Backoff.pollReady, hw, hp]
    rw [hstate]
    simp [Backoff.pollReady, hlt]

/-- Witness for C4: a stateless inner service that always fails; a failed
poll at t=0, a still-waiting poll at t=3, a fire-and-repoll at t=5, and the
no-inner-poll guarantee for t=4 after the failure. -/
theorem backoff_poll_ready_spec_witness :
    (Backoff.pollReady controllerBackoffWait (fun u => (InnerPoll.err, u))
        ⟨(), false, 0⟩ 0
      = (.notReady, ⟨(), true, 0 + controllerBackoffWait⟩, 1)) ∧
    (Backoff.pollReady controllerBackoffWait (fun u => (InnerPoll.err, u))
        ⟨(), true, 5⟩ 3 = (.notReady, ⟨(), true, 5⟩, 0)) ∧
    ((Backoff.pollReady controllerBackoffWait (fun u => (InnerPoll.ready, u))
        ⟨(), true, 5⟩ 5).2.2 = 1) ∧
    (Backoff.pollReady controllerBackoffWait (fun u => (InnerPoll.err, u))
        (Backoff.pollReady controllerBackoffWait (fun u => (InnerPoll.err, u))
          ⟨(), false, 0⟩ 0).2.1 4
      = (.notReady,
          (Backoff.pollReady controllerBackoffWait (fun u => (InnerPoll.err, u))
            ⟨(), false, 0⟩ 0).2.1, 0)) :=
  ⟨(backoff_poll_ready_spec (fun u => (InnerPoll.err, u)) ⟨(), false, 0⟩ 0).1
      (by decide) rfl,
   (backoff_poll_ready_spec (fun u => (InnerPoll.err, u)) ⟨(), true, 5⟩ 3).2.1
      rfl (by decide),
   ((backoff_poll_ready_spec (fun u => (InnerPoll.ready, u)) ⟨(), true, 5⟩ 5).2.2.1
      rfl (by decide)).1,
   (backoff_poll_ready_spec (fun u => (InnerPoll.err, u)) ⟨(), false, 0⟩ 0).2.2.2
      rfl (by decide) 4 (fun u => (InnerPoll.err, u)) (by decide)⟩

/-- C10: the `CopyBuf` invariant `read_pos ≤ write_pos ≤ buf.len() = 4096`:
`new` establishes it; `reset` (invoked only with `read_pos = write_pos`),
`advance` (under its assert `write_pos ≥ read_pos + cnt`) and `advance_mut`
(under its assert `buf.len() ≥ write_pos + cnt`) preserve it; under the
invariant a fully drained buffer (`!has_remaining`) indeed has
`read_pos = write_pos` (the precondition of the only `reset` call site),
`remaining` is exactly `write_pos - read_pos` with no underflow, and
`bytes`/`bytes_mut` are slices of length `remaining`/`remaining_mut` lying
inside the 4096-byte buffer. -/
theorem copybuf_invariant :
    CopyBuf.Inv CopyBuf.new ∧
    (∀ c : CopyBuf, c.Inv → c.read_pos = c.write_pos → c.reset.Inv) ∧
    (∀ (c : CopyBuf) (cnt : Nat), c.Inv → c.read_pos + cnt ≤ c.write_pos →
      (c.advance cnt).Inv) ∧
    (∀ (c : CopyBuf) (cnt : Nat), c.Inv → c.write_pos + cnt ≤ c.buf.length →
      (c.advanceMut cnt).Inv) ∧
    (∀ c : CopyBuf, c.Inv → c.hasRemaining = false →
      c.read_pos = c.write_pos) ∧
    (∀ c : CopyBuf, c.Inv → c.read_pos + c.remaining = c.write_pos) ∧
    (∀ c : CopyBuf, c.Inv →
      c.bytes.length = c.remaining ∧ c.bytesMut.length = c.remainingMut) := by
  refine ⟨?_, ?_, ?_, ?_, ?_, ?_, ?_⟩
  · exact copybuf_new_inv
  · rintro c ⟨_, hwl, hlen⟩ _
    exact ⟨Nat.le_refl 0, Nat.zero_le _, hlen⟩
  · rintro c cnt ⟨_, hwl, hlen⟩ hcnt
    exact ⟨hcnt, hwl, hlen⟩
  · rintro c cnt ⟨hrw, _, hlen⟩ hcnt
    exact ⟨Nat.le_trans hrw (Nat.le_add_right _ _), hcnt, hlen⟩
  · rintro c ⟨hrw, _, _⟩ hnr
    simp [CopyBuf.hasRemaining, CopyBuf.remaining] at hnr
    omega
  · rintro c ⟨hrw, _, _⟩
    simp [CopyBuf.remaining]
    omega
  · rintro c ⟨hrw, hwl, _⟩
    constructor
    · simp [CopyBuf.bytes, CopyBuf.remaining, List.length_take]
      omega
    · simp [CopyBuf.bytesMut, CopyBuf.remainingMut]

/-- Witness for C10: the invariant-preservation conjuncts applied to the
fresh buffer and to a buffer with `read_pos = 1 < write_pos = 3`. -/
theorem copybuf_invariant_witness :
    CopyBuf.new.reset.Inv ∧
    (CopyBuf.new.advanceMut 3).Inv ∧
    ((CopyBuf.new.advanceMut 3).advance 2).Inv ∧
    CopyBuf.new.read_pos = CopyBuf.new.write_pos ∧
    CopyBuf.new.read_pos + CopyBuf.new.remaining = CopyBuf.new.write_pos ∧
    (CopyBuf.new.bytes.length = CopyBuf.new.remaining ∧
      CopyBuf.new.bytesMut.length = CopyBuf.new.remainingMut) :=
  ⟨copybuf_invariant.2.1 CopyBuf.new copybuf_new_inv rfl,
   copybuf_invariant.2.2.2.1 CopyBuf.new 3 copybuf_new_inv
     (by rw [copybuf_new_length]; show (0 : Nat) + 3 ≤ 4096; omega),
   copybuf_invariant.2.2.1 (CopyBuf.new.advanceMut 3) 2
     (copybuf_invariant.2.2.2.1 CopyBuf.new 3 copybuf_new_inv
       (by rw [copybuf_new_length]; show (0 : Nat) + 3 ≤ 4096; omega))
     (by show (0 : Nat) + 2 ≤ 0 + 3; omega),
   copybuf_invariant.2.2.2.2.1 CopyBuf.new copybuf_new_inv rfl,
   copybuf_invariant.2.2.2.2.2.1 CopyBuf.new copybuf_new_inv,
   copybuf_invariant.2.2.2.2.2.2 CopyBuf.new copybuf_new_inv⟩

/-- C6: per direction of a Duplex session: (1) a 0-byte (EOF) read sets
the direction's buffer slot to `none`; (2) with the slot `none`,
`write_into` touches nothing at the peer — no further write occurs for
that direction; (3) while buffered bytes remain, `read` does not consult
the socket at all (so EOF is only ever observed with the buffer fully
drained into the peer first); and (4) on the `copy_into` iteration in
which the buffer becomes `none`, provided the peer is not already shut
down, the peer's write side is shut down and its `is_shutdown` flag set,
its write script and written-byte log untouched. -/
theorem half_duplex_eof_shutdown :
    (∀ (h : HalfDuplex) (b : CopyBuf) (rest : List ReadEv),
      h.buf = some b → b.hasRemaining = false → h.io.reads = .data [] :: rest →
      h.read = (.ready (), { h with buf := none, io := { h.io with reads := rest } })) ∧
    (∀ (h dst : HalfDuplex), h.buf = none →
      h.writeInto dst = (.ready (), h, dst)) ∧
    (∀ (h : HalfDuplex) (b : CopyBuf), h.buf = some b → b.hasRemaining = true →
      h.read = (.ready (), h)) ∧
    (∀ (fuel : Nat) (h dst : HalfDuplex) (b : CopyBuf) (rest : List ReadEv)
        (srest : List ShutEv),
      h.buf = some b → b.hasRemaining = false → h.io.reads = .data [] :: rest →
      dst.is_shutdown = false → dst.io.shuts = .done :: srest →
      HalfDuplex.copyInto (fuel + 1) h dst
        = some (.ready (),
            { h with buf := none, io := { h.io with reads := rest } },
            { dst with is_shutdown := true,
                       io := { dst.io with shuts := srest } })) := by
  have hread : ∀ (h : HalfDuplex) (b : CopyBuf) (rest : List ReadEv),
      h.buf = some b → b.hasRemaining = false → h.io.reads = .data [] :: rest →
      h.read = (.ready (), { h with buf := none, io := { h.io with reads := rest } }) := by
    intro h b rest hb hnr hr
    simp [HalfDuplex.read, hb, hnr, readBuf, hr]
  have hfull : ∀ (h : HalfDuplex) (b : CopyBuf), h.buf = some b →
      b.hasRemaining = true → h.read = (.ready (), h) := by
    intro h b hb hr
    simp [HalfDuplex.read, hb, hr]
  refine ⟨hread, fun h dst hb => halfduplex_write_into_none hb, hfull, ?_⟩
  intro fuel h dst b rest srest hb hnr hr hds hshut
  have h1 := hread h b rest hb hnr hr
  simp only [HalfDuplex.copyInto, h1]
  simp [HalfDuplex.writeInto, hds, shutIo, hshut]

/-- Witness for C6: a direction whose socket immediately signals EOF,
copying into a peer that accepts shutdown at once. -/
theorem half_duplex_eof_shutdown_witness :
    (HalfDuplex.mk (some CopyBuf.new) false (IoState.mk [.data []] [] [] [])).read
        = (.ready (),
            { HalfDuplex.mk (some CopyBuf.new) false (IoState.mk [.data []] [] [] []) with
                buf := none,
                io := { IoState.mk [.data []] [] [] [] with reads := ([] : List ReadEv) } }) ∧
    (HalfDuplex.mk none false (IoState.mk [] [] [] [])).writeInto
        (HalfDuplex.mk (some CopyBuf.new) false (IoState.mk [] [.accept 1] [.done] [7]))
      = (.ready (), HalfDuplex.mk none false (IoState.mk [] [] [] []),
          HalfDuplex.mk (some CopyBuf.new) false (IoState.mk [] [.accept 1] [.done] [7])) ∧
    (HalfDuplex.mk (some (CopyBuf.new.advanceMut 1)) false
        (IoState.mk [.data []] [] [] [])).read
      = (.ready (), HalfDuplex.mk (some (CopyBuf.new.advanceMut 1)) false
          (IoState.mk [.data []] [] [] [])) ∧
    HalfDuplex.copyInto (0 + 1)
        (HalfDuplex.mk (some CopyBuf.new) false (IoState.mk [.data []] [] [] []))
        (HalfDuplex.mk (some CopyBuf.new) false (IoState.mk [] [] [.done] []))
      = some (.ready (),
          { HalfDuplex.mk (some CopyBuf.new) false (IoState.mk [.data []] [] [] []) with
              buf := none,
              io := { IoState.mk [.data []] [] [] [] with reads := ([] : List ReadEv) } },
          { HalfDuplex.mk (some CopyBuf.new) false (IoState.mk [] [] [.done] []) with
              is_shutdown := true,
              io := { IoState.mk [] [] [.done] [] with shuts := ([] : List ShutEv) } }) :=
  ⟨half_duplex_eof_shutdown.1
      (HalfDuplex.mk (some CopyBuf.new) false (IoState.mk [.data []] [] [] []))
      CopyBuf.new [] rfl rfl rfl,
   half_duplex_eof_shutdown.2.1
      (HalfDuplex.mk none false (IoState.mk [] [] [] []))
      (HalfDuplex.mk (some CopyBuf.new) false (IoState.mk [] [.accept 1] [.done] [7]))
      rfl,
   half_duplex_eof_shutdown.2.2.1
      (HalfDuplex.mk (some (CopyBuf.new.advanceMut 1)) false
        (IoState.mk [.data []] [] [] []))
      (CopyBuf.new.advanceMut 1) rfl rfl,
   half_duplex_eof_shutdown.2.2.2 0
      (HalfDuplex.mk (some CopyBuf.new) false (IoState.mk [.data []] [] [] []))
      (HalfDuplex.mk (some CopyBuf.new) false (IoState.mk [] [] [.done] []))
      CopyBuf.new [] [] rfl rfl rfl rfl rfl⟩

/-- C5 (code evaluated at the failing input): from a fresh Duplex whose
inbound socket signals EOF at once (peer shutdown accepted) and whose
outbound socket is not yet readable, the first poll returns NotReady in the
state `duplexStuck` — `half_in` finished, `half_out.is_shutdown = true`,
`half_in.is_shutdown = false`, so the session is not complete — and every
subsequent poll of that state returns nothing for any iteration budget: the
`copy_into` loop spins forever instead of reporting NotReady, so the future
can never resolve `Ready(())` as the claim requires. -/
theorem duplex_poll_diverges_after_half_done :
    Duplex.poll 4 (Duplex.new (IoState.mk [.data []] [] [] [])
        (IoState.mk [.notReady] [] [.done] []))
      = some (.notReady, duplexStuck) ∧
    duplexStuck.half_in.is_shutdown = false ∧
    duplexStuck.half_out.is_shutdown = true ∧
    (∀ fuel, Duplex.poll fuel duplexStuck = none) := by
  refine ⟨?_, rfl, rfl, ?_⟩
  · simp [Duplex.poll, Duplex.new, HalfDuplex.new, HalfDuplex.copyInto,
      HalfDuplex.read, HalfDuplex.writeInto, readBuf, shutIo, HalfDuplex.isDone,
      copybuf_new_not_remaining, copybuf_reset_new, duplexStuck]
  · intro fuel
    have hspin := copy_into_spins
      (show duplexStuck.half_in.buf = none from rfl)
      (show duplexStuck.half_out.is_shutdown = true from rfl) fuel
    simp [Duplex.poll, hspin]

end Conduit
